import Mathlib

/-!
Verification of the fleetstream real-time telemetry pipeline.

Shallow embedding of the Go backend's core components:
* the per-machine sliding window (ring buffer) and the anomaly detector
  (`services/anomaly_detector.go`),
* the WebSocket broadcast hub's enqueue-or-drop delivery loop
  (`websocket/hub.go`),
* the Kafka consumer's message validation and channel routing
  (`kafka/consumer.go`).

Go float64 values are modelled as rationals (`ℚ`); all inputs exercised here
are small decimal constants on which float64 arithmetic is exact.
Timestamps are modelled as rationals measured in seconds, so that
`time.Time.Sub(...).Seconds()` becomes plain subtraction.
Go's nilable `*SensorEvent` slots inside the ring buffer array are modelled
as `Option SensorEvent`.
-/

namespace FleetStream

/-- Model of `models.SensorEvent`: incoming sensor data decoded from Kafka.
`timestamp` is in seconds.  `additionalDesc` models the dynamic lookup
`event.AdditionalData["description"].(string)`: it is `some d` exactly when
the open map holds a string-typed `description` entry `d`. -/
structure SensorEvent where
  timestamp : ℚ
  machineID : String
  conveyorSpeed : ℚ
  temperature : ℚ
  robotArmAngle : ℚ
  status : String
  eventType : String
  additionalDesc : Option String
  deriving DecidableEq, Inhabited

/-- Model of `models.Alert` (the fields the detector fills in). -/
structure Alert where
  alertType : String
  severity : String
  message : String
  deriving DecidableEq, Inhabited

/-- Model of `models.AnomalyThresholds`. -/
structure AnomalyThresholds where
  conveyorSpeedMin : ℚ
  conveyorSpeedMax : ℚ
  temperatureMin : ℚ
  temperatureMax : ℚ
  robotAngleMin : ℚ
  robotAngleMax : ℚ
  deriving DecidableEq, Inhabited

/-- Fixed-point decimal rendering of a rational, modelling Go's `%.<prec>f`
format verb (round to `prec` decimal places, half away from the floor). -/
def fmtFixed (prec : Nat) (q : ℚ) : String :=
  let r : ℤ := ⌊q * (10 : ℚ) ^ prec + 1 / 2⌋
  let sign := if r < 0 then "-" else ""
  let a := r.natAbs
  let ip := a / 10 ^ prec
  let fp := a % 10 ^ prec
  if prec = 0 then sign ++ toString ip
  else
    let fpStr := toString fp
    let pad := String.mk (List.replicate (prec - fpStr.length) '0')
    sign ++ toString ip ++ "." ++ pad ++ fpStr

/-- Model of `SlidingWindow`: fixed-capacity circular store of recent events.
The Go backing array `events []*models.SensorEvent` (initially all nil)
is modelled as a list of `Option SensorEvent` of length `maxSize`. -/
structure SlidingWindow where
  events : List (Option SensorEvent)
  maxSize : Nat
  position : Nat
  full : Bool
  deriving DecidableEq, Inhabited

/-- Model of `NewSlidingWindow`. -/
def newSlidingWindow (maxSize : Nat) : SlidingWindow :=
  { events := List.replicate maxSize none
    maxSize := maxSize
    position := 0
    full := false }

/-- Model of `SlidingWindow.Add`: write at `position`, advance modulo `maxSize`,
mark full once the write position wraps to zero. -/
def SlidingWindow.add (sw : SlidingWindow) (e : SensorEvent) : SlidingWindow :=
  let events := sw.events.set sw.position (some e)
  let position := (sw.position + 1) % sw.maxSize
  { sw with
    events := events
    position := position
    full := if !sw.full && position == 0 then true else sw.full }

/-- Model of `SlidingWindow.GetEvents`: when not yet full, the slice
`sw.events[:sw.position]`; when full, a freshly built list rotated so the
oldest slot comes first. -/
def SlidingWindow.getEvents (sw : SlidingWindow) : List (Option SensorEvent) :=
  if !sw.full then sw.events.take sw.position
  else (List.range sw.maxSize).map fun i =>
    sw.events.getD ((sw.position + i) % sw.maxSize) none

/-- The value `GetEvents` returns, as Go data: when not full it is a slice
header over the window's live backing array (offset 0, given length); when
full it is a freshly allocated copy.  Reading the slice later goes through
the window state current at read time. -/
inductive Snapshot where
  | aliased (len : Nat)
  | copied (entries : List (Option SensorEvent))
  deriving DecidableEq

/-- Model of `SlidingWindow.GetEvents` as a snapshot value (Go slice semantics). -/
def SlidingWindow.getEventsSnap (sw : SlidingWindow) : Snapshot :=
  if !sw.full then .aliased sw.position
  else .copied ((List.range sw.maxSize).map fun i =>
    sw.events.getD ((sw.position + i) % sw.maxSize) none)

/-- Iterating a previously returned snapshot against the window state at
read time: an aliased slice reads the current backing array, a copy is
independent of it. -/
def readSnapshot (s : Snapshot) (sw : SlidingWindow) : List (Option SensorEvent) :=
  match s with
  | .aliased len => sw.events.take len
  | .copied entries => entries

/-- Model of `SlidingWindow.GetRecentEvents` restricted to the dereferenced event
list: keep everything when `n` covers the list, else the last `n`. -/
def lastNEvents (n : Nat) (events : List SensorEvent) : List SensorEvent :=
  if events.length ≤ n then events else events.drop (events.length - n)

/-- The dereferenced contents of a window.  Every window reached through
`AnalyzeEvent` has been filled exclusively by `Add`, so every slot returned
by `GetEvents` is non-nil and this is exactly the event list the Go
detectors walk. -/
def windowContents (sw : SlidingWindow) : List SensorEvent :=
  sw.getEvents.filterMap id

/-- Conveyor-speed branch of `detectThresholdViolations`. -/
def speedAlerts (th : AnomalyThresholds) (e : SensorEvent) : List Alert :=
  if e.conveyorSpeed < th.conveyorSpeedMin then
    [{ alertType := "conveyor_speed_low"
       severity := "high"
       message := "Conveyor speed below minimum threshold: " ++ fmtFixed 2 e.conveyorSpeed
         ++ " m/s (min: " ++ fmtFixed 2 th.conveyorSpeedMin ++ ")" }]
  else if e.conveyorSpeed > th.conveyorSpeedMax then
    [{ alertType := "conveyor_speed_high"
       severity := "high"
       message := "Conveyor speed above maximum threshold: " ++ fmtFixed 2 e.conveyorSpeed
         ++ " m/s (max: " ++ fmtFixed 2 th.conveyorSpeedMax ++ ")" }]
  else []

/-- Temperature branch of `detectThresholdViolations`. -/
def tempAlerts (th : AnomalyThresholds) (e : SensorEvent) : List Alert :=
  if e.temperature < th.temperatureMin then
    [{ alertType := "temperature_low"
       severity := "medium"
       message := "Temperature below minimum threshold: " ++ fmtFixed 1 e.temperature
         ++ "°C (min: " ++ fmtFixed 1 th.temperatureMin ++ ")" }]
  else if e.temperature > th.temperatureMax then
    [{ alertType := "temperature_high"
       severity := "high"
       message := "Temperature above maximum threshold: " ++ fmtFixed 1 e.temperature
         ++ "°C (max: " ++ fmtFixed 1 th.temperatureMax ++ ")" }]
  else []

/-- Robot-arm-angle branch of `detectThresholdViolations`. -/
def angleAlerts (th : AnomalyThresholds) (e : SensorEvent) : List Alert :=
  if e.robotArmAngle < th.robotAngleMin ∨ e.robotArmAngle > th.robotAngleMax then
    [{ alertType := "robot_angle_invalid"
       severity := "medium"
       message := "Robot arm angle out of valid range: " ++ fmtFixed 1 e.robotArmAngle
         ++ "° (range: " ++ fmtFixed 1 th.robotAngleMin ++ "-" ++ fmtFixed 1 th.robotAngleMax ++ ")" }]
  else []

/-- Status branch of `detectThresholdViolations` (fault/warning alerts). -/
def statusAlerts (e : SensorEvent) : List Alert :=
  if e.status = "fault" then
    [{ alertType := e.eventType
       severity := "high"
       message :=
         match e.additionalDesc with
         | some faultDesc => "Machine fault: " ++ faultDesc
         | none => "Machine fault detected: " ++ e.eventType }]
  else if e.status = "warning" then
    [{ alertType := e.eventType
       severity := "medium"
       message := "Warning condition: " ++ e.eventType }]
  else []

/-- Model of `AnomalyDetector.detectThresholdViolations`: the alerts are accumulated
in field order (speed, temperature, angle, status) and handed to the alert
callback in that order; we model the function as returning that list. -/
def detectThresholdViolations (th : AnomalyThresholds) (e : SensorEvent) : List Alert :=
  speedAlerts th e ++ tempAlerts th e ++ angleAlerts th e ++ statusAlerts e

/-- Model of `AnomalyDetector.detectRapidTemperatureChange`: rate of temperature
change between the last event and the one four positions earlier, with a
division guarded by `timeSpan > 0`. -/
def detectRapidTemperatureChange (events : List SensorEvent) : Bool :=
  if events.length < 5 then false
  else
    let tempChange := (events.getD (events.length - 1) default).temperature
      - (events.getD (events.length - 5) default).temperature
    let timeSpan := (events.getD (events.length - 1) default).timestamp
      - (events.getD (events.length - 5) default).timestamp
    if timeSpan > 0 then
      let changeRate := tempChange / timeSpan
      decide (changeRate > 2 ∨ changeRate < -2)
    else false

/-- Model of `AnomalyDetector.detectSpeedInstability`: the dispersion measure the
code actually computes is `variance * variance` (the comment in the source
says standard deviation), compared against `0.5`. -/
def detectSpeedInstability (events : List SensorEvent) : Bool :=
  if events.length < 5 then false
  else
    let n : ℚ := events.length
    let sum := (events.map (·.conveyorSpeed)).sum
    let sumSquares := (events.map fun e => e.conveyorSpeed * e.conveyorSpeed).sum
    let mean := sum / n
    let variance := sumSquares / n - mean * mean
    let stdDev := variance * variance
    decide (stdDev > 1 / 2)

/-- Model of `AnomalyDetector.detectTrendAnomalies`, run on the dereferenced window
contents: both trend checks work on the window's last (up to) 10 events. -/
def detectTrendAnomalies (e : SensorEvent) (events : List SensorEvent) : List Alert :=
  let recentEvents := lastNEvents 10 events
  if recentEvents.length < 5 then []
  else
    (if detectRapidTemperatureChange recentEvents then
      [{ alertType := "rapid_temperature_change"
         severity := "medium"
         message := "Rapid temperature change detected on machine " ++ e.machineID }]
    else [])
    ++
    (if detectSpeedInstability recentEvents then
      [{ alertType := "speed_instability"
         severity := "medium"
         message := "Conveyor speed instability detected on machine " ++ e.machineID }]
    else [])

/-- Model of `AnomalyDetector.detectPatternAnomalies`, run on the dereferenced
window contents: count faults among the last (up to) 20 events. -/
def detectPatternAnomalies (events : List SensorEvent) : List Alert :=
  let recentEvents := lastNEvents 20 events
  if recentEvents.length < 10 then []
  else
    let faultCount : Nat := recentEvents.foldl
      (fun acc ev => if ev.status = "fault" then acc + 1 else acc) 0
    if faultCount ≥ 3 then
      [{ alertType := "repeated_faults"
         severity := "high"
         message := "Multiple faults detected in recent history ("
           ++ toString faultCount ++ " faults in last 20 events)" }]
    else []

/-- The per-machine window registry of `AnomalyDetector.slidingWindow`,
modelled as an association list. -/
def lookupWindow : List (String × SlidingWindow) → String → Option SlidingWindow
  | [], _ => none
  | (k, w) :: rest, key => if k = key then some w else lookupWindow rest key

/-- Map update for the window registry. -/
def insertWindow : List (String × SlidingWindow) → String → SlidingWindow →
    List (String × SlidingWindow)
  | [], key, w => [(key, w)]
  | (k, w0) :: rest, key, w =>
    if k = key then (k, w) :: rest else (k, w0) :: insertWindow rest key w

/-- Model of `AnomalyDetector` state: current thresholds and the per-machine windows. -/
structure AnomalyDetector where
  thresholds : AnomalyThresholds
  slidingWindow : List (String × SlidingWindow)

/-- Model of `AnomalyDetector.AnalyzeEvent`: fetch or lazily create the 50-slot
window for the machine, add the event, then run the three detection passes.
The alerts handed to the callback are returned as a list, in callback
order. -/
def AnomalyDetector.analyzeEvent (ad : AnomalyDetector) (e : SensorEvent) :
    AnomalyDetector × List Alert :=
  let window :=
    match lookupWindow ad.slidingWindow e.machineID with
    | some w => w
    | none => newSlidingWindow 50
  let window := window.add e
  ({ ad with slidingWindow := insertWindow ad.slidingWindow e.machineID window },
    detectThresholdViolations ad.thresholds e
      ++ detectTrendAnomalies e (windowContents window)
      ++ detectPatternAnomalies (windowContents window))

/-- The thresholds `NewAnomalyDetector` installs. -/
def defaultThresholds : AnomalyThresholds :=
  { conveyorSpeedMin := 1 / 10
    conveyorSpeedMax := 7 / 2
    temperatureMin := 15
    temperatureMax := 85
    robotAngleMin := 0
    robotAngleMax := 180 }

/-- Errors the consumer reports on its error channel. `unmarshalError`
stands for the wrapped `json.Unmarshal` failure; `invalidEvent` carries the
validation error message. -/
inductive ConsumerError where
  | unmarshalError
  | invalidEvent (msg : String)
  deriving DecidableEq

/-- Model of `Consumer.validateEvent`: returns the first failing check's error
message, or `none` on success.  The status check models the Go
`validStatuses` map lookup. -/
def validateEvent (e : SensorEvent) : Option String :=
  if e.machineID = "" then some ("machine_id is required")
  else if e.status = "" then some ("status is required")
  else if e.eventType = "" then some ("event_type is required")
  else if ¬(e.status = "ok" ∨ e.status = "warning" ∨ e.status = "fault") then
    some ("invalid status: " ++ e.status)
  else if e.conveyorSpeed < 0 ∨ e.conveyorSpeed > 10 then
    some ("conveyor speed out of range: " ++ fmtFixed 6 e.conveyorSpeed)
  else if e.temperature < -50 ∨ e.temperature > 200 then
    some ("temperature out of range: " ++ fmtFixed 6 e.temperature)
  else if e.robotArmAngle < 0 ∨ e.robotArmAngle > 360 then
    some ("robot arm angle out of range: " ++ fmtFixed 6 e.robotArmAngle)
  else none

/-- The consumer's two outbound Go channels, as bounded queues: the event
channel is built with capacity 100 and the error channel with capacity 10
(`NewConsumer`). -/
structure ChannelState where
  eventQueue : List SensorEvent
  eventCap : Nat
  errorQueue : List ConsumerError
  errorCap : Nat
  deriving DecidableEq

/-- A Go `select { case ch <- x: default: }` on a buffered channel with no
concurrent receiver: enqueue when below capacity, otherwise drop. -/
def trySend {α : Type} (q : List α) (cap : Nat) (x : α) : List α :=
  if q.length < cap then q ++ [x] else q

/-- The channel state `NewConsumer` starts with. -/
def newChannels : ChannelState :=
  { eventQueue := [], eventCap := 100, errorQueue := [], errorCap := 10 }

/-- Model of `Consumer.processMessage` after the `json.Unmarshal` step, whose result
is passed in as `decoded` (`none` = unmarshal failure): decode failures and
validation failures go to the error channel, valid events to the event
channel, each with the non-blocking send of the source. -/
def processMessage (ch : ChannelState) (decoded : Option SensorEvent) : ChannelState :=
  match decoded with
  | none =>
    { ch with errorQueue := trySend ch.errorQueue ch.errorCap .unmarshalError }
  | some event =>
    match validateEvent event with
    | some err =>
      { ch with errorQueue := trySend ch.errorQueue ch.errorCap (.invalidEvent err) }
    | none =>
      { ch with eventQueue := trySend ch.eventQueue ch.eventCap event }

/-- One registered WebSocket client as the hub sees it: its buffered `send`
channel is the mailbox (created with capacity 256 in `HandleWebSocket`;
kept as a field so the backpressure policy can be stated for any bound). -/
structure HubClient where
  id : String
  mailbox : List String
  capacity : Nat
  deriving DecidableEq

/-- Hub registry state: the `clients` set plus the ids whose send channels
the hub has closed. -/
structure HubState where
  clients : List HubClient
  closedChans : List String
  deriving DecidableEq

/-- The `broadcast` case of `Hub.Run`, for subscribers that are not
concurrently draining their mailboxes: for each registered client, a
non-blocking send of the serialized message; on a full mailbox the client's
send channel is closed and the client is deleted from the registry. -/
def hubBroadcast (h : HubState) (message : String) : HubState :=
  { clients := h.clients.filterMap fun c =>
      if c.mailbox.length < c.capacity then
        some { c with mailbox := c.mailbox ++ [message] }
      else none
    closedChans := h.closedChans ++
      (h.clients.filter fun c => !(c.mailbox.length < c.capacity)).map HubClient.id }

/-! ### Ring buffer abstraction

`modelAdd` is the abstract queue the sliding window refines: keep at most
`c` events, dropping the oldest once full. -/

/-- Abstract bounded-history insert: append, dropping the oldest entry once
the capacity `c` is reached. -/
def modelAdd (c : Nat) (q : List SensorEvent) (e : SensorEvent) : List SensorEvent :=
  if q.length < c then q ++ [e] else q.drop 1 ++ [e]

/-- Index of the oldest live slot in the backing array. -/
def winStart (w : SlidingWindow) : Nat :=
  if w.full then w.position else 0

/-- Refinement relation between a window and the abstract queue `q` of its
live events, oldest first. -/
def WinRel (c : Nat) (q : List SensorEvent) (w : SlidingWindow) : Prop :=
  w.maxSize = c ∧ w.events.length = c ∧ w.position < c ∧ q.length ≤ c ∧
  w.full = decide (c ≤ q.length) ∧
  (w.full = false → w.position = q.length) ∧
  ∀ i, i < q.length → w.events[(winStart w + i) % c]? = some q[i]?

/-! ### Spec-side measurement functions used in claim statements -/

/-- Temperature difference between the window's newest event and the event
four positions earlier (the claims' "Δtemperature over the last 5 events"). -/
def newestTemperatureDelta (events : List SensorEvent) : ℚ :=
  (events.getD (events.length - 1) default).temperature
    - (events.getD (events.length - 5) default).temperature

/-- Timestamp difference in seconds between the window's newest event and
the event four positions earlier. -/
def newestTimeSpan (events : List SensorEvent) : ℚ :=
  (events.getD (events.length - 1) default).timestamp
    - (events.getD (events.length - 5) default).timestamp

/-- Population variance of the conveyor speeds, the dispersion measure the
source's own comment announces (via `E[X²] − E[X]²`, as the code computes
it before squaring once more). -/
def speedVariance (events : List SensorEvent) : ℚ :=
  let n : ℚ := events.length
  let mean := (events.map (·.conveyorSpeed)).sum / n
  (events.map fun e => e.conveyorSpeed * e.conveyorSpeed).sum / n - mean * mean

/-- Is the alert one of the two conveyor-speed threshold alerts? -/
def isSpeedAlertType (a : Alert) : Bool :=
  a.alertType == "conveyor_speed_low" || a.alertType == "conveyor_speed_high"

/-- Is the alert one of the two temperature threshold alerts? -/
def isTempAlertType (a : Alert) : Bool :=
  a.alertType == "temperature_low" || a.alertType == "temperature_high"

/-- Is the alert the robot-arm-angle threshold alert? -/
def isAngleAlertType (a : Alert) : Bool :=
  a.alertType == "robot_angle_invalid"

/-! ### Concrete data for witnesses and counterexamples -/

/-- Event constructor for concrete test data (machine `m1`, angle 90°). -/
def mkEv (t temp speed : ℚ) (status : String) : SensorEvent :=
  { timestamp := t
    machineID := "m1"
    conveyorSpeed := speed
    temperature := temp
    robotArmAngle := 90
    status := status
    eventType := "cycle"
    additionalDesc := none }

def w2a : SensorEvent := mkEv 1 20 1 "ok"

def w2b : SensorEvent := mkEv 2 21 1 "ok"

def w2c : SensorEvent := mkEv 3 22 1 "ok"

/-- Five events with temperature rising 20 °C → 35 °C over 2 seconds. -/
def trendFastEvents : List SensorEvent :=
  [mkEv 0 20 1 "ok", mkEv (1/2) 24 1 "ok", mkEv 1 28 1 "ok",
   mkEv (3/2) 31 1 "ok", mkEv 2 35 1 "ok"]

/-- The same temperature profile spread over 60 seconds. -/
def trendSlowEvents : List SensorEvent :=
  [mkEv 0 20 1 "ok", mkEv 15 24 1 "ok", mkEv 30 28 1 "ok",
   mkEv 45 31 1 "ok", mkEv 60 35 1 "ok"]

/-- Five events with identical timestamps (zero time span). -/
def trendZeroSpanEvents : List SensorEvent :=
  [mkEv 7 20 1 "ok", mkEv 7 24 1 "ok", mkEv 7 28 1 "ok",
   mkEv 7 31 1 "ok", mkEv 7 35 1 "ok"]

/-- Twenty events of which exactly 3 have status `fault`. -/
def patternFaultEvents : List SensorEvent :=
  List.replicate 5 (mkEv 1 20 1 "ok") ++ [mkEv 2 20 1 "fault"]
    ++ List.replicate 6 (mkEv 3 20 1 "ok") ++ [mkEv 4 20 1 "fault"]
    ++ List.replicate 6 (mkEv 5 20 1 "ok") ++ [mkEv 6 20 1 "fault"]

/-- Twenty events of which exactly 2 have status `fault`. -/
def patternTwoFaultEvents : List SensorEvent :=
  List.replicate 9 (mkEv 1 20 1 "ok") ++ [mkEv 2 20 1 "fault"]
    ++ List.replicate 9 (mkEv 3 20 1 "ok") ++ [mkEv 4 20 1 "fault"]

/-- Five events whose conveyor speeds are 0, 0, 0, 1, 2: speed variance 0.64,
standard deviation 0.8. -/
def unstableSpeedEvents : List SensorEvent :=
  [mkEv 0 20 0 "ok", mkEv 1 20 0 "ok", mkEv 2 20 0 "ok",
   mkEv 3 20 1 "ok", mkEv 4 20 2 "ok"]

/-- Event whose only out-of-range quantity is a too-low temperature. -/
def tempLowEvent : SensorEvent := mkEv 1 10 1 "ok"

/-- Event whose conveyor speed sits exactly at the configured maximum. -/
def speedAtMaxEvent : SensorEvent := mkEv 1 20 (7/2) "ok"

/-- Event with conveyor speed below the minimum threshold. -/
def speedLowEvent : SensorEvent := mkEv 1 20 0 "ok"

/-- The end-to-end test event of claim C8. -/
def conveyorJamEvent (desc : Option String) : SensorEvent :=
  { timestamp := 5
    machineID := "m1"
    conveyorSpeed := 0
    temperature := 72
    robotArmAngle := 90
    status := "fault"
    eventType := "conveyor_jam"
    additionalDesc := desc }

/-- The thresholds of claim C8: speed range [0.5, 3.0], defaults otherwise. -/
def jamThresholds : AnomalyThresholds :=
  { conveyorSpeedMin := 1/2
    conveyorSpeedMax := 3
    temperatureMin := 15
    temperatureMax := 85
    robotAngleMin := 0
    robotAngleMax := 180 }

/-- A valid event distinct from `default` (used against a full channel). -/
def freshValidEvent : SensorEvent := mkEv 0 20 1 "ok"

/-- Channel state whose event queue is at its capacity of 100. -/
def fullEventChannels : ChannelState :=
  { eventQueue := List.replicate 100 default
    eventCap := 100
    errorQueue := []
    errorCap := 10 }

/-- Hub registry: a capacity-1 subscriber that never drains alongside two
healthy capacity-256 subscribers. -/
def demoHub : HubState :=
  { clients :=
      [ { id := "slow", mailbox := [], capacity := 1 }
      , { id := "a", mailbox := [], capacity := 256 }
      , { id := "b", mailbox := [], capacity := 256 } ]
    closedChans := [] }

lemma winRel_new (c : Nat) (hc : 0 < c) : WinRel c [] (newSlidingWindow c) := by
  refine ⟨rfl, by simp [newSlidingWindow], hc, by simp, ?_, fun _ => rfl, ?_⟩
  · simp [newSlidingWindow]
    omega
  · intro i hi
    simp at hi

lemma winRel_add (c : Nat) (q : List SensorEvent) (w : SlidingWindow)
    (e : SensorEvent) (hc : 0 < c) (h : WinRel c q w) :
    WinRel c (modelAdd c q e) (w.add e) := by
  obtain ⟨hms, hlen, hpos, hqlen, hfull, hposq, hslots⟩ := h
  cases hw : w.full with
  | false =>
    have hn : w.position = q.length := hposq hw
    have hqlt : q.length < c := hn ▸ hpos
    have hq' : modelAdd c q e = q ++ [e] := by
      unfold modelAdd
      rw [if_pos hqlt]
    rw [hq']
    have hstart : winStart w = 0 := by simp [winStart, hw]
    have hslot : ∀ i, i < q.length + 1 →
        (w.events.set w.position (some e))[i]? = some (q ++ [e])[i]? := by
      intro i hi
      rcases Nat.lt_or_ge i q.length with hilt | hige
      · rw [List.getElem?_set, if_neg (by omega)]
        have := hslots i hilt
        rw [hstart] at this
        rw [Nat.zero_add, Nat.mod_eq_of_lt (by omega)] at this
        rw [this, List.getElem?_append, if_pos hilt]
      · have hie : i = q.length := by omega
        subst hie
        rw [List.getElem?_set, if_pos (by omega), if_pos (by omega),
          List.getElem?_concat_length]
    by_cases hwrap : q.length + 1 < c
    · -- no wrap: still not full
      have hpos' : (w.position + 1) % w.maxSize = q.length + 1 := by
        rw [hms, hn, Nat.mod_eq_of_lt (by omega)]
      refine ⟨hms, ?_, ?_, ?_, ?_, ?_, ?_⟩
      · simpa [SlidingWindow.add] using hlen
      · simp only [SlidingWindow.add, hpos']
        omega
      · simp
        omega
      · simp only [SlidingWindow.add, hpos', hw]
        simp
        omega
      · intro _
        simp only [SlidingWindow.add, hpos']
        simp
      · intro i hi
        simp only [SlidingWindow.add]
        have hstart' : winStart (w.add e) = 0 := by
          simp only [winStart, SlidingWindow.add, hpos', hw]
          simp
        simp only [SlidingWindow.add] at hstart'
        rw [hstart', Nat.zero_add]
        simp only [List.length_append, List.length_singleton] at hi
        rw [Nat.mod_eq_of_lt (by omega)]
        exact hslot i (by omega)
    · -- wrap: the write fills the last free slot, window becomes full
      have hceq : q.length + 1 = c := by omega
      have hpos' : (w.position + 1) % w.maxSize = 0 := by
        rw [hms, hn]
        rw [hceq]
        simp
      refine ⟨hms, ?_, ?_, ?_, ?_, ?_, ?_⟩
      · simpa [SlidingWindow.add] using hlen
      · simp only [SlidingWindow.add, hpos']
        exact hc
      · simp
        omega
      · simp only [SlidingWindow.add, hpos', hw]
        simp
        omega
      · intro habs
        simp only [SlidingWindow.add, hpos', hw] at habs
        simp at habs
      · intro i hi
        have hstart' : winStart (w.add e) = 0 := by
          by_cases hf : (w.add e).full
          · simp only [winStart, if_pos hf]
            simp only [SlidingWindow.add, hpos']
          · simp [winStart, hf]
        rw [hstart', Nat.zero_add]
        simp only [List.length_append, List.length_singleton] at hi
        simp only [SlidingWindow.add]
        rw [Nat.mod_eq_of_lt (by omega)]
        exact hslot i (by omega)
  | true =>
    have hcq : c ≤ q.length := by
      rw [hw] at hfull
      exact of_decide_eq_true hfull.symm
    have hqc : q.length = c := le_antisymm hqlen hcq
    have hq' : modelAdd c q e = q.drop 1 ++ [e] := by
      unfold modelAdd
      rw [if_neg (by omega)]
    have hq'len : (q.drop 1 ++ [e]).length = c := by
      simp
      omega
    rw [hq']
    have hfull' : (w.add e).full = true := by
      simp [SlidingWindow.add, hw]
    have hpos' : (w.add e).position = (w.position + 1) % c := by
      simp [SlidingWindow.add, hms]
    have hstart : winStart w = w.position := by simp [winStart, hw]
    have hstart' : winStart (w.add e) = (w.position + 1) % c := by
      simp [winStart, hfull', hpos']
    refine ⟨hms, ?_, ?_, by omega, ?_, ?_, ?_⟩
    · simpa [SlidingWindow.add] using hlen
    · rw [hpos']
      exact Nat.mod_lt _ hc
    · rw [hfull', hq'len]
      simp
    · intro habs
      rw [hfull'] at habs
      cases habs
    · intro i hi
      rw [hq'len] at hi
      rw [hstart', Nat.mod_add_mod]
      have hev : (w.add e).events = w.events.set w.position (some e) := by
        simp [SlidingWindow.add]
      rw [hev]
      rcases Nat.lt_or_ge i (c - 1) with hilt | hige
      · -- untouched slot: holds the abstract queue's element `i + 1`
        have hidx : (w.position + 1 + i) % c = (w.position + (1 + i)) % c := by
          congr 1
          omega
        have hinv := hslots (1 + i) (by omega)
        rw [hstart] at hinv
        have hne : (w.position + (1 + i)) % c ≠ w.position := by
          rcases Nat.lt_or_ge (w.position + (1 + i)) c with hlt2 | hge2
          · rw [Nat.mod_eq_of_lt hlt2]
            omega
          · have hlt3 : w.position + (1 + i) - c < c := by omega
            rw [Nat.mod_eq_sub_mod hge2, Nat.mod_eq_of_lt hlt3]
            omega
        rw [hidx, List.getElem?_set, if_neg (Ne.symm hne), hinv]
        have hdrop : (q.drop 1 ++ [e])[i]? = q[1 + i]? := by
          rw [List.getElem?_append, if_pos (by simp; omega), List.getElem?_drop]
        rw [hdrop]
      · -- the overwritten slot is the newest element
        have hie : i = c - 1 := by omega
        subst hie
        have hidx : (w.position + 1 + (c - 1)) % c = w.position := by
          have : w.position + 1 + (c - 1) = w.position + c := by omega
          rw [this, Nat.add_mod_right, Nat.mod_eq_of_lt hpos]
        rw [hidx, List.getElem?_set, if_pos rfl, if_pos (by omega)]
        have hlast : (q.drop 1 ++ [e])[c - 1]? = some e := by
          have hdl : (q.drop 1).length = c - 1 := by simp; omega
          rw [← hdl, List.getElem?_concat_length]
        rw [hlast]

lemma winRel_foldl (c : Nat) (hc : 0 < c) (es : List SensorEvent)
    (q : List SensorEvent) (w : SlidingWindow) (h : WinRel c q w) :
    WinRel c (es.foldl (modelAdd c) q) (es.foldl SlidingWindow.add w) := by
  induction es generalizing q w with
  | nil => exact h
  | cons x xs ih => exact ih (modelAdd c q x) (w.add x) (winRel_add c q w x hc h)

lemma modelAdd_foldl_eq_drop (c : Nat) (hc : 0 < c) (es : List SensorEvent) :
    es.foldl (modelAdd c) [] = es.drop (es.length - c) := by
  induction es using List.reverseRecOn with
  | nil => simp
  | append_singleton xs x ih =>
    rw [List.foldl_concat, ih]
    by_cases hlt : xs.length < c
    · have h0 : xs.length - c = 0 := by omega
      have h1 : xs.length + 1 - c = 0 := by omega
      simp [modelAdd, h0, h1, hlt]
    · have hdlen : (xs.drop (xs.length - c)).length = c := by
        simp
        omega
      unfold modelAdd
      rw [hdlen, if_neg (lt_irrefl c), List.drop_drop,
        List.length_append, List.length_singleton,
        List.drop_append_of_le_length (by omega)]
      congr 2
      omega

lemma getEvents_of_winRel (c : Nat) (q : List SensorEvent) (w : SlidingWindow)
    (h : WinRel c q w) : w.getEvents = q.map some := by
  obtain ⟨hms, hlen, hpos, hqlen, hfull, hposq, hslots⟩ := h
  unfold SlidingWindow.getEvents
  cases hw : w.full with
  | false =>
    simp only [hw, Bool.not_false, if_pos]
    have hn : w.position = q.length := hposq hw
    have hstart : winStart w = 0 := by simp [winStart, hw]
    apply List.ext_getElem?
    intro i
    rw [List.getElem?_take, List.getElem?_map]
    by_cases hi : i < w.position
    · rw [if_pos hi]
      have hiq : i < q.length := hn ▸ hi
      have hinv := hslots i hiq
      rw [hstart, Nat.zero_add, Nat.mod_eq_of_lt (by omega)] at hinv
      rw [hinv, List.getElem?_eq_getElem hiq]
      rfl
    · rw [if_neg hi]
      rw [List.getElem?_eq_none (by omega)]
      rfl
  | true =>
    simp only [hw, Bool.not_true, Bool.false_eq_true, if_neg, if_false]
    have hcq : c ≤ q.length := of_decide_eq_true (hw ▸ hfull).symm
    have hqc : q.length = c := le_antisymm hqlen hcq
    have hstart : winStart w = w.position := by simp [winStart, hw]
    apply List.ext_getElem?
    intro i
    by_cases hi : i < c
    · have hiq : i < q.length := by omega
      rw [List.getElem?_map, List.getElem?_map,
        List.getElem?_range (show i < w.maxSize by omega), hms]
      have hinv := hslots i hiq
      rw [hstart] at hinv
      rw [List.getElem?_eq_getElem hiq] at hinv
      rw [List.getElem?_eq_getElem hiq]
      simp only [Option.map_some', List.getD_eq_getElem?_getD, hinv,
        Option.getD_some]
    · rw [List.getElem?_eq_none (by simp [hms]; omega),
        List.getElem?_eq_none (by simp; omega)]

/-- Claim C2: after any sequence of `n` `Add` calls into a fresh window of
capacity `c > 0`, `GetEvents` returns exactly the most recently added
`min n c` events in their original insertion order (oldest first), and the
window's backing store never exceeds `c` slots. -/
theorem slidingWindow_add_getEvents (c : Nat) (hc : 0 < c) (es : List SensorEvent) :
    (es.foldl SlidingWindow.add (newSlidingWindow c)).getEvents
        = (es.drop (es.length - c)).map some
    ∧ (es.foldl SlidingWindow.add (newSlidingWindow c)).getEvents.length
        = min es.length c
    ∧ (es.foldl SlidingWindow.add (newSlidingWindow c)).events.length = c := by
  have hrel := winRel_foldl c hc es [] (newSlidingWindow c) (winRel_new c hc)
  rw [modelAdd_foldl_eq_drop c hc es] at hrel
  have h1 := getEvents_of_winRel c _ _ hrel
  refine ⟨h1, ?_, hrel.2.1⟩
  rw [h1]
  simp
  omega

/-- Concrete run of `slidingWindow_add_getEvents`: three inserts into a
two-slot window keep the last two events in order. -/
theorem slidingWindow_add_getEvents_witness :
    (([w2a, w2b, w2c] : List SensorEvent).foldl SlidingWindow.add
        (newSlidingWindow 2)).getEvents = [some w2b, some w2c]
    ∧ (([w2a, w2b, w2c] : List SensorEvent).foldl SlidingWindow.add
        (newSlidingWindow 2)).getEvents.length = min 3 2 := by
  have h := slidingWindow_add_getEvents 2 (by decide) [w2a, w2b, w2c]
  refine ⟨?_, h.2.1⟩
  rw [h.1]
  rfl

/-- Claim C9 counterexample: a snapshot taken before the window is full is
the Go slice `events[:position]`, which aliases the live backing array;
two further `Add` calls wrap the write position around and mutate the slot
the snapshot covers, so iterating the snapshot later observes `w2c` where
it held `w2a`. -/
theorem snapshot_pointInTime_cex :
    readSnapshot ((newSlidingWindow 2).add w2a).getEventsSnap
        ((newSlidingWindow 2).add w2a) = [some w2a]
    ∧ readSnapshot ((newSlidingWindow 2).add w2a).getEventsSnap
        ((((newSlidingWindow 2).add w2a).add w2b).add w2c) = [some w2c]
    ∧ (some w2a : Option SensorEvent) ≠ some w2c := by
  refine ⟨rfl, rfl, fun h => ?_⟩
  rw [Option.some_inj] at h
  have ht := congrArg SensorEvent.timestamp h
  norm_num [w2a, w2c, mkEv] at ht

/-- Claim C9 (amended): a snapshot read against the unchanged window is
the window's event list, and a snapshot taken while the window is full is
a fresh copy, unaffected by any sequence of later `Add` calls. -/
theorem snapshot_pointInTime_amended (sw : SlidingWindow) (later : List SensorEvent) :
    readSnapshot sw.getEventsSnap sw = sw.getEvents
    ∧ (sw.full = true →
        readSnapshot sw.getEventsSnap (later.foldl SlidingWindow.add sw) = sw.getEvents) := by
  constructor
  · cases hf : sw.full
    · simp [SlidingWindow.getEventsSnap, SlidingWindow.getEvents, readSnapshot, hf]
    · simp [SlidingWindow.getEventsSnap, SlidingWindow.getEvents, readSnapshot, hf]
  · intro hf
    simp [SlidingWindow.getEventsSnap, SlidingWindow.getEvents, readSnapshot, hf]

/-- Concrete run of `snapshot_pointInTime_amended`: a full two-slot window's
snapshot still reads `[w2a, w2b]` after one more `Add`. -/
theorem snapshot_pointInTime_witness :
    readSnapshot (((newSlidingWindow 2).add w2a).add w2b).getEventsSnap
        (([w2c] : List SensorEvent).foldl SlidingWindow.add
          (((newSlidingWindow 2).add w2a).add w2b))
      = (((newSlidingWindow 2).add w2a).add w2b).getEvents :=
  (snapshot_pointInTime_amended (((newSlidingWindow 2).add w2a).add w2b) [w2c]).2
    (by decide)

lemma countP_speed_speedAlerts (th : AnomalyThresholds) (e : SensorEvent) :
    (speedAlerts th e).countP isSpeedAlertType
      = if e.conveyorSpeed < th.conveyorSpeedMin ∨ e.conveyorSpeed > th.conveyorSpeedMax
        then 1 else 0 := by
  unfold speedAlerts
  split_ifs <;> simp_all [isSpeedAlertType]
  all_goals rcases ‹_ ∨ _› with h | h <;> linarith

lemma countP_temp_tempAlerts (th : AnomalyThresholds) (e : SensorEvent) :
    (tempAlerts th e).countP isTempAlertType
      = if e.temperature < th.temperatureMin ∨ e.temperature > th.temperatureMax
        then 1 else 0 := by
  unfold tempAlerts
  split_ifs <;> simp_all [isTempAlertType]
  all_goals rcases ‹_ ∨ _› with h | h <;> linarith

lemma countP_angle_angleAlerts (th : AnomalyThresholds) (e : SensorEvent) :
    (angleAlerts th e).countP isAngleAlertType
      = if e.robotArmAngle < th.robotAngleMin ∨ e.robotArmAngle > th.robotAngleMax
        then 1 else 0 := by
  unfold angleAlerts
  split_ifs <;> simp_all [isAngleAlertType]

lemma countP_cross_zero (th : AnomalyThresholds) (e : SensorEvent) :
    (speedAlerts th e).countP isTempAlertType = 0
    ∧ (speedAlerts th e).countP isAngleAlertType = 0
    ∧ (tempAlerts th e).countP isSpeedAlertType = 0
    ∧ (tempAlerts th e).countP isAngleAlertType = 0
    ∧ (angleAlerts th e).countP isSpeedAlertType = 0
    ∧ (angleAlerts th e).countP isTempAlertType = 0 := by
  unfold speedAlerts tempAlerts angleAlerts
  refine ⟨?_, ?_, ?_, ?_, ?_, ?_⟩ <;>
    split_ifs <;> simp_all [isSpeedAlertType, isTempAlertType, isAngleAlertType]

lemma countP_statusAlerts_zero (e : SensorEvent)
    (h1 : e.eventType ≠ "conveyor_speed_low") (h2 : e.eventType ≠ "conveyor_speed_high")
    (h3 : e.eventType ≠ "temperature_low") (h4 : e.eventType ≠ "temperature_high")
    (h5 : e.eventType ≠ "robot_angle_invalid") :
    (statusAlerts e).countP isSpeedAlertType = 0
    ∧ (statusAlerts e).countP isTempAlertType = 0
    ∧ (statusAlerts e).countP isAngleAlertType = 0 := by
  unfold statusAlerts
  refine ⟨?_, ?_, ?_⟩ <;>
    split_ifs <;> simp_all [isSpeedAlertType, isTempAlertType, isAngleAlertType]

lemma mem_threshold_cases (th : AnomalyThresholds) (e : SensorEvent) (a : Alert)
    (ha : a ∈ detectThresholdViolations th e) :
    (a.alertType = "conveyor_speed_low" ∧ a.severity = "high")
    ∨ (a.alertType = "conveyor_speed_high" ∧ a.severity = "high")
    ∨ (a.alertType = "temperature_low" ∧ a.severity = "medium")
    ∨ (a.alertType = "temperature_high" ∧ a.severity = "high")
    ∨ (a.alertType = "robot_angle_invalid" ∧ a.severity = "medium")
    ∨ (a.alertType = e.eventType ∧ (a.severity = "high" ∨ a.severity = "medium")) := by
  unfold detectThresholdViolations speedAlerts tempAlerts angleAlerts statusAlerts at ha
  simp only [List.mem_append] at ha
  rcases ha with ((ha | ha) | ha) | ha <;> split_ifs at ha <;> simp_all

/-- Claim C1 counterexample: under the default thresholds, an event whose
temperature (10 °C) is below the 15 °C minimum yields the single threshold
alert `temperature_low` with severity `medium`, not the claimed `high`;
and an event whose conveyor speed equals the configured maximum — outside
the claimed half-open range [min, max) — yields no alert at all. -/
theorem thresholdChecks_cex :
    ((detectThresholdViolations defaultThresholds tempLowEvent).map
        fun a => (a.alertType, a.severity)) = [("temperature_low", "medium")]
    ∧ detectThresholdViolations defaultThresholds speedAtMaxEvent = [] := by
  have hso : ("ok" : String) ≠ "fault" := by decide
  have hsw : ("ok" : String) ≠ "warning" := by decide
  constructor <;>
    norm_num [detectThresholdViolations, speedAlerts, tempAlerts, angleAlerts,
      statusAlerts, defaultThresholds, tempLowEvent, speedAtMaxEvent, mkEv, hso, hsw]

/-- Claim C1 (amended): each quantity outside its closed threshold range
[min, max] produces exactly one threshold alert naming that quantity, and
none when the value is inside [min, max] (hence for values strictly inside
[min, max)); severities are high for both conveyor-speed extremes and for
over-temperature, and medium for under-temperature and for the robot-arm
angle.  The hypothesis keeps the event's own `eventType` (used verbatim as
the alertType of status alerts) from colliding with the five threshold
alert names. -/
theorem thresholdChecks_amended (th : AnomalyThresholds) (e : SensorEvent)
    (h1 : e.eventType ≠ "conveyor_speed_low") (h2 : e.eventType ≠ "conveyor_speed_high")
    (h3 : e.eventType ≠ "temperature_low") (h4 : e.eventType ≠ "temperature_high")
    (h5 : e.eventType ≠ "robot_angle_invalid") :
    ((detectThresholdViolations th e).countP isSpeedAlertType
      = if e.conveyorSpeed < th.conveyorSpeedMin ∨ e.conveyorSpeed > th.conveyorSpeedMax
        then 1 else 0)
    ∧ ((detectThresholdViolations th e).countP isTempAlertType
      = if e.temperature < th.temperatureMin ∨ e.temperature > th.temperatureMax
        then 1 else 0)
    ∧ ((detectThresholdViolations th e).countP isAngleAlertType
      = if e.robotArmAngle < th.robotAngleMin ∨ e.robotArmAngle > th.robotAngleMax
        then 1 else 0)
    ∧ (∀ a ∈ detectThresholdViolations th e, isSpeedAlertType a = true → a.severity = "high")
    ∧ (∀ a ∈ detectThresholdViolations th e, a.alertType = "temperature_high" → a.severity = "high")
    ∧ (∀ a ∈ detectThresholdViolations th e, a.alertType = "temperature_low" → a.severity = "medium")
    ∧ (∀ a ∈ detectThresholdViolations th e, isAngleAlertType a = true → a.severity = "medium") := by
  obtain ⟨z1, z2, z3, z4, z5, z6⟩ := countP_cross_zero th e
  obtain ⟨s1, s2, s3⟩ := countP_statusAlerts_zero e h1 h2 h3 h4 h5
  refine ⟨?_, ?_, ?_, ?_, ?_, ?_, ?_⟩
  · simp only [detectThresholdViolations, List.countP_append,
      countP_speed_speedAlerts, z3, z5, s1, Nat.add_zero, Nat.zero_add]
  · simp only [detectThresholdViolations, List.countP_append,
      countP_temp_tempAlerts, z1, z6, s2, Nat.add_zero, Nat.zero_add]
  · simp only [detectThresholdViolations, List.countP_append,
      countP_angle_angleAlerts, z2, z4, s3, Nat.add_zero, Nat.zero_add]
  · intro a ha hsp
    rcases mem_threshold_cases th e a ha with h | h | h | h | h | h <;>
      simp_all [isSpeedAlertType]
  · intro a ha hty
    rcases mem_threshold_cases th e a ha with h | h | h | h | h | h <;>
      simp_all
  · intro a ha hty
    rcases mem_threshold_cases th e a ha with h | h | h | h | h | h <;>
      simp_all
  · intro a ha han
    rcases mem_threshold_cases th e a ha with h | h | h | h | h | h <;>
      simp_all [isAngleAlertType]

/-- Concrete run of `thresholdChecks_amended`: an event with conveyor speed
0 under the default thresholds (minimum 0.1) yields exactly one speed alert
and its severity is high. -/
theorem thresholdChecks_witness :
    (detectThresholdViolations defaultThresholds speedLowEvent).countP isSpeedAlertType = 1
    ∧ ∀ a ∈ detectThresholdViolations defaultThresholds speedLowEvent,
        isSpeedAlertType a = true → a.severity = "high" := by
  have h := thresholdChecks_amended defaultThresholds speedLowEvent
    (by decide) (by decide) (by decide) (by decide) (by decide)
  refine ⟨h.1.trans ?_, h.2.2.2.1⟩
  norm_num [defaultThresholds, speedLowEvent, mkEv]

lemma windowContents_eq (sw : SlidingWindow) (es : List SensorEvent)
    (hw : sw.getEvents = es.map some) : windowContents sw = es := by
  rw [windowContents, hw]
  induction es with
  | nil => rfl
  | cons x xs ih => simp_all [List.filterMap_cons]

lemma lastNEvents_length (n : Nat) (es : List SensorEvent) :
    (lastNEvents n es).length = min es.length n := by
  unfold lastNEvents
  split_ifs with h <;> simp <;> omega

lemma lastNEvents_getD_back (n k : Nat) (es : List SensorEvent)
    (hk : 0 < k) (hkle : k ≤ (lastNEvents n es).length) :
    (lastNEvents n es).getD ((lastNEvents n es).length - k) default
      = es.getD (es.length - k) default := by
  by_cases h : es.length ≤ n
  · simp [lastNEvents, h]
  · have hkn : k ≤ n := by
      rw [lastNEvents_length] at hkle
      omega
    simp only [lastNEvents, if_neg h]
    rw [List.getD_eq_getElem?_getD, List.getD_eq_getElem?_getD, List.getElem?_drop]
    have hidx : es.length - n + ((es.drop (es.length - n)).length - k)
        = es.length - k := by
      simp
      omega
    rw [hidx]

lemma rapid_on_lastN (es : List SensorEvent) (h5 : 5 ≤ es.length) :
    detectRapidTemperatureChange (lastNEvents 10 es)
      = if newestTimeSpan es > 0 then
          decide (newestTemperatureDelta es / newestTimeSpan es > 2
            ∨ newestTemperatureDelta es / newestTimeSpan es < -2)
        else false := by
  have hlen : (lastNEvents 10 es).length = min es.length 10 := lastNEvents_length 10 es
  have h1 := lastNEvents_getD_back 10 1 es (by omega) (by omega)
  have h5g := lastNEvents_getD_back 10 5 es (by omega) (by omega)
  simp only [detectRapidTemperatureChange, newestTemperatureDelta, newestTimeSpan]
  rw [if_neg (by omega), h1, h5g]

/-- Claim C3: with at least five events in the machine's window, analysis
of the newest event raises the `rapid_temperature_change` alert exactly
when the temperature change between the newest and the 4th-previous event,
divided by their (positive) time span in seconds, exceeds 2 °C/s in
absolute value; any such alert carries severity medium. -/
theorem trendCheck_rapidTemperature (sw : SlidingWindow) (es : List SensorEvent)
    (e : SensorEvent) (hw : sw.getEvents = es.map some) (h5 : 5 ≤ es.length)
    (hlast : es.getLast? = some e) (hdt : 0 < newestTimeSpan es) :
    ((detectTrendAnomalies e (windowContents sw)).countP
        (fun a => a.alertType == "rapid_temperature_change")
      = if 2 < |newestTemperatureDelta es / newestTimeSpan es| then 1 else 0)
    ∧ ∀ a ∈ detectTrendAnomalies e (windowContents sw),
        a.alertType = "rapid_temperature_change" → a.severity = "medium" := by
  rw [windowContents_eq sw es hw]
  have hb1 : (("rapid_temperature_change" : String) == "rapid_temperature_change")
      = true := by decide
  have hb2 : (("speed_instability" : String) == "rapid_temperature_change")
      = false := by decide
  have habs : (2 < |newestTemperatureDelta es / newestTimeSpan es|) ↔
      (newestTemperatureDelta es / newestTimeSpan es > 2
        ∨ newestTemperatureDelta es / newestTimeSpan es < -2) := by
    rw [lt_abs]
    constructor
    · rintro (h | h)
      · left; exact h
      · right; linarith
    · rintro (h | h)
      · left; exact h
      · right; linarith
  constructor
  · simp only [detectTrendAnomalies]
    rw [if_neg (by rw [lastNEvents_length]; omega), List.countP_append,
      rapid_on_lastN es h5, if_pos hdt]
    by_cases hc : 2 < |newestTemperatureDelta es / newestTimeSpan es|
    · rw [if_pos hc, if_pos (decide_eq_true (habs.mp hc))]
      cases hsi : detectSpeedInstability (lastNEvents 10 es) <;>
        simp [hsi, List.countP_cons, hb1, hb2]
    · rw [if_neg hc, if_neg (by
        intro hb
        exact hc (habs.mpr (of_decide_eq_true hb)))]
      cases hsi : detectSpeedInstability (lastNEvents 10 es) <;>
        simp [hsi, List.countP_cons, hb1, hb2]
  · intro a ha hty
    simp only [detectTrendAnomalies] at ha
    by_cases hlen : (lastNEvents 10 es).length < 5
    · rw [if_pos hlen] at ha
      simp at ha
    · rw [if_neg hlen] at ha
      simp only [List.mem_append] at ha
      rcases ha with ha | ha <;> split_ifs at ha <;> simp_all

/-- Concrete runs of `trendCheck_rapidTemperature`: the 20 °C → 35 °C rise
over 2 seconds (rate 7.5 °C/s) alerts; the same rise over 60 seconds
(rate 0.25 °C/s) does not. -/
theorem trendCheck_rapidTemperature_witness :
    ((detectTrendAnomalies (mkEv 2 35 1 "ok") (windowContents
        (trendFastEvents.foldl SlidingWindow.add (newSlidingWindow 50)))).countP
      (fun a => a.alertType == "rapid_temperature_change") = 1)
    ∧ ((detectTrendAnomalies (mkEv 60 35 1 "ok") (windowContents
        (trendSlowEvents.foldl SlidingWindow.add (newSlidingWindow 50)))).countP
      (fun a => a.alertType == "rapid_temperature_change") = 0) := by
  constructor
  · have h := trendCheck_rapidTemperature
      (trendFastEvents.foldl SlidingWindow.add (newSlidingWindow 50)) trendFastEvents
      (mkEv 2 35 1 "ok") rfl (by simp [trendFastEvents]) rfl
      (by norm_num [newestTimeSpan, trendFastEvents, mkEv])
    refine h.1.trans ?_
    rw [if_pos]
    norm_num [newestTemperatureDelta, newestTimeSpan, trendFastEvents, mkEv]
    rw [abs_of_pos] <;> norm_num
  · have h := trendCheck_rapidTemperature
      (trendSlowEvents.foldl SlidingWindow.add (newSlidingWindow 50)) trendSlowEvents
      (mkEv 60 35 1 "ok") rfl (by simp [trendSlowEvents]) rfl
      (by norm_num [newestTimeSpan, trendSlowEvents, mkEv])
    refine h.1.trans ?_
    rw [if_neg]
    intro hx
    rw [show newestTemperatureDelta trendSlowEvents / newestTimeSpan trendSlowEvents
        = 1/4 by norm_num [newestTemperatureDelta, newestTimeSpan, trendSlowEvents, mkEv]]
      at hx
    rw [abs_of_pos (by norm_num)] at hx
    norm_num at hx

/-- Claim C10: when the newest event's timestamp is not strictly later than
the 4th-previous event's, the rapid-temperature-change check returns false
(the rate division is guarded), and trend analysis raises no
`rapid_temperature_change` alert. -/
theorem rapidChange_zeroSpan_guard (sw : SlidingWindow) (es : List SensorEvent)
    (e : SensorEvent) (hw : sw.getEvents = es.map some) (h5 : 5 ≤ es.length)
    (hts : newestTimeSpan es ≤ 0) :
    detectRapidTemperatureChange (lastNEvents 10 (windowContents sw)) = false
    ∧ ∀ a ∈ detectTrendAnomalies e (windowContents sw),
        a.alertType ≠ "rapid_temperature_change" := by
  rw [windowContents_eq sw es hw]
  have hfalse : detectRapidTemperatureChange (lastNEvents 10 es) = false := by
    rw [rapid_on_lastN es h5, if_neg (not_lt.mpr hts)]
  refine ⟨hfalse, ?_⟩
  intro a ha
  simp only [detectTrendAnomalies] at ha
  by_cases hlen : (lastNEvents 10 es).length < 5
  · rw [if_pos hlen] at ha
    simp at ha
  · rw [if_neg hlen, hfalse] at ha
    simp only [Bool.false_eq_true, if_false, List.nil_append] at ha
    split_ifs at ha <;> simp_all

/-- Concrete run of `rapidChange_zeroSpan_guard`: five events sharing one
timestamp raise no rapid-temperature alert even though the temperature
climbs 15 °C. -/
theorem rapidChange_zeroSpan_witness :
    detectRapidTemperatureChange (lastNEvents 10 (windowContents
      (trendZeroSpanEvents.foldl SlidingWindow.add (newSlidingWindow 5)))) = false :=
  (rapidChange_zeroSpan_guard
    (trendZeroSpanEvents.foldl SlidingWindow.add (newSlidingWindow 5))
    trendZeroSpanEvents (mkEv 7 35 1 "ok") rfl (by simp [trendZeroSpanEvents])
    (by norm_num [newestTimeSpan, trendZeroSpanEvents, mkEv])).1

lemma foldl_count_faults (es : List SensorEvent) (k : Nat) :
    es.foldl (fun acc ev => if ev.status = "fault" then acc + 1 else acc) k
      = k + es.countP (fun ev => ev.status == "fault") := by
  induction es generalizing k with
  | nil => simp
  | cons x xs ih =>
    simp only [List.foldl_cons, ih, List.countP_cons]
    by_cases hx : x.status = "fault"
    · simp [hx]
      omega
    · simp [hx]

/-- Claim C4: with at least 10 events in the window's last-20 tail, the
pattern pass raises exactly one alert — `repeated_faults`, severity high —
when at least 3 of the last 20 events have status `fault`, and none
otherwise. -/
theorem patternCheck_repeatedFaults (sw : SlidingWindow) (es : List SensorEvent)
    (hw : sw.getEvents = es.map some) (h10 : 10 ≤ es.length) :
    ((detectPatternAnomalies (windowContents sw)).length
      = if 3 ≤ (lastNEvents 20 es).countP (fun ev => ev.status == "fault")
        then 1 else 0)
    ∧ ∀ a ∈ detectPatternAnomalies (windowContents sw),
        a.alertType = "repeated_faults" ∧ a.severity = "high" := by
  rw [windowContents_eq sw es hw]
  constructor
  · simp only [detectPatternAnomalies]
    rw [if_neg (by rw [lastNEvents_length]; omega), foldl_count_faults]
    simp only [Nat.zero_add]
    split_ifs <;> simp_all
  · intro a ha
    simp only [detectPatternAnomalies] at ha
    split_ifs at ha <;> simp_all

/-- Concrete runs of `patternCheck_repeatedFaults`: 20 events containing
exactly 3 faults raise the alert, 20 events containing exactly 2 do not. -/
theorem patternCheck_repeatedFaults_witness :
    ((detectPatternAnomalies (windowContents
        (patternFaultEvents.foldl SlidingWindow.add (newSlidingWindow 20)))).length = 1)
    ∧ ((detectPatternAnomalies (windowContents
        (patternTwoFaultEvents.foldl SlidingWindow.add (newSlidingWindow 20)))).length = 0) := by
  constructor
  · exact (patternCheck_repeatedFaults
      (patternFaultEvents.foldl SlidingWindow.add (newSlidingWindow 20))
      patternFaultEvents rfl (by decide)).1.trans (by decide)
  · exact (patternCheck_repeatedFaults
      (patternTwoFaultEvents.foldl SlidingWindow.add (newSlidingWindow 20))
      patternTwoFaultEvents rfl (by decide)).1.trans (by decide)

/-- Claim C5 evaluated on the code: five events with conveyor speeds
0, 0, 0, 1, 2 have speed variance 16/25 = 0.64 (standard deviation
4/5 = 0.8), so under either reading of the claimed dispersion measure the
0.5 threshold is exceeded and an alert is due — yet the source's
`detectSpeedInstability`, which squares the variance once more
(`stdDev := variance * variance`, giving 0.4096), returns false. -/
theorem speedInstability_code_eval :
    detectSpeedInstability unstableSpeedEvents = false
    ∧ speedVariance unstableSpeedEvents = (4/5) * (4/5)
    ∧ (1:ℚ)/2 < 4/5
    ∧ (1:ℚ)/2 < (4/5) * (4/5) := by
  refine ⟨?_, ?_, by norm_num, by norm_num⟩
  · simp only [detectSpeedInstability]
    rw [if_neg (by simp [unstableSpeedEvents])]
    rw [decide_eq_false]
    norm_num [unstableSpeedEvents, mkEv]
  · norm_num [speedVariance, unstableSpeedEvents, mkEv]

lemma hubBroadcast_keeps (h : HubState) (msg : String) (c : HubClient)
    (hc : c ∈ h.clients) (hroom : c.mailbox.length < c.capacity) :
    { c with mailbox := c.mailbox ++ [msg] } ∈ (hubBroadcast h msg).clients := by
  simp only [hubBroadcast]
  rw [List.mem_filterMap]
  exact ⟨c, hc, by rw [if_pos hroom]⟩

lemma hubBroadcast_mem_inv (h : HubState) (msg : String) (x : HubClient)
    (hx : x ∈ (hubBroadcast h msg).clients) :
    ∃ c ∈ h.clients, c.mailbox.length < c.capacity
      ∧ x = { c with mailbox := c.mailbox ++ [msg] } := by
  simp only [hubBroadcast, List.mem_filterMap] at hx
  obtain ⟨a, ha, hfa⟩ := hx
  by_cases hroom : a.mailbox.length < a.capacity
  · rw [if_pos hroom] at hfa
    exact ⟨a, ha, hroom, (Option.some_inj.mp hfa).symm⟩
  · rw [if_neg hroom] at hfa
    cases hfa

lemma hubBroadcast_ids (l : List HubClient) (msg : String) :
    ((l.filterMap fun c =>
        if c.mailbox.length < c.capacity then
          some { c with mailbox := c.mailbox ++ [msg] }
        else none).map HubClient.id)
      = ((l.filter fun c => decide (c.mailbox.length < c.capacity)).map HubClient.id) := by
  induction l with
  | nil => rfl
  | cons x xs ih =>
    by_cases hx : x.mailbox.length < x.capacity
    · simp [List.filterMap_cons, List.filter_cons, hx, ih]
    · simp [List.filterMap_cons, List.filter_cons, hx, ih]

lemma hubBroadcast_nodup (h : HubState) (msg : String)
    (hn : (h.clients.map HubClient.id).Nodup) :
    (((hubBroadcast h msg).clients).map HubClient.id).Nodup := by
  simp only [hubBroadcast]
  rw [hubBroadcast_ids]
  exact hn.sublist ((List.filter_sublist _).map HubClient.id)

lemma hubBroadcast_drops (h : HubState) (msg : String) (c : HubClient)
    (hn : (h.clients.map HubClient.id).Nodup) (hc : c ∈ h.clients)
    (hfull : ¬ c.mailbox.length < c.capacity) :
    (∀ x ∈ (hubBroadcast h msg).clients, x.id ≠ c.id)
    ∧ c.id ∈ (hubBroadcast h msg).closedChans := by
  constructor
  · intro x hx heq
    obtain ⟨a, ha, hroom, rfl⟩ := hubBroadcast_mem_inv h msg x hx
    have hid : a.id = c.id := heq
    have : a = c := List.inj_on_of_nodup_map hn ha hc hid
    subst this
    exact hfull hroom
  · simp only [hubBroadcast, List.mem_append]
    right
    rw [List.mem_map]
    refine ⟨c, ?_, rfl⟩
    rw [List.mem_filter]
    exact ⟨hc, by simpa using hfull⟩

lemma hubBroadcast_closed_mono (h : HubState) (msg : String) (i : String)
    (hi : i ∈ h.closedChans) : i ∈ (hubBroadcast h msg).closedChans := by
  simp only [hubBroadcast, List.mem_append]
  exact Or.inl hi

/-- Claim C6: on each broadcast, every registered subscriber with mailbox
room is enqueued the identical payload; every subscriber whose mailbox is
full is removed from the registry and its send channel closed.  In
particular a capacity-1 subscriber that never drains is gone after the
second publish, while subscribers with room for both messages receive both
in order. -/
theorem hubBroadcast_backpressure (h : HubState) (m1 m2 : String)
    (hn : (h.clients.map HubClient.id).Nodup) :
    (∀ c ∈ h.clients, c.mailbox.length < c.capacity →
        { c with mailbox := c.mailbox ++ [m1] } ∈ (hubBroadcast h m1).clients)
    ∧ (∀ c ∈ h.clients, ¬ c.mailbox.length < c.capacity →
        (∀ x ∈ (hubBroadcast h m1).clients, x.id ≠ c.id)
        ∧ c.id ∈ (hubBroadcast h m1).closedChans)
    ∧ (∀ c ∈ h.clients, c.capacity = 1 → c.mailbox = [] →
        (∀ x ∈ (hubBroadcast (hubBroadcast h m1) m2).clients, x.id ≠ c.id)
        ∧ c.id ∈ (hubBroadcast (hubBroadcast h m1) m2).closedChans)
    ∧ (∀ c ∈ h.clients, c.mailbox.length + 2 ≤ c.capacity →
        { c with mailbox := c.mailbox ++ [m1, m2] }
          ∈ (hubBroadcast (hubBroadcast h m1) m2).clients) := by
  refine ⟨?_, ?_, ?_, ?_⟩
  · intro c hc hroom
    exact hubBroadcast_keeps h m1 c hc hroom
  · intro c hc hfull
    exact hubBroadcast_drops h m1 c hn hc hfull
  · intro c hc hcap hbox
    have hroom : c.mailbox.length < c.capacity := by
      rw [hcap, hbox]
      decide
    have hmem1 : { c with mailbox := c.mailbox ++ [m1] } ∈ (hubBroadcast h m1).clients :=
      hubBroadcast_keeps h m1 c hc hroom
    have hfull1 : ¬ ({ c with mailbox := c.mailbox ++ [m1] } : HubClient).mailbox.length
        < ({ c with mailbox := c.mailbox ++ [m1] } : HubClient).capacity := by
      simp [hcap, hbox]
    have hdrop := hubBroadcast_drops (hubBroadcast h m1) m2
      { c with mailbox := c.mailbox ++ [m1] } (hubBroadcast_nodup h m1 hn) hmem1 hfull1
    exact hdrop
  · intro c hc hroom2
    have h1 : { c with mailbox := c.mailbox ++ [m1] } ∈ (hubBroadcast h m1).clients :=
      hubBroadcast_keeps h m1 c hc (by omega)
    have h2 := hubBroadcast_keeps (hubBroadcast h m1) m2
      { c with mailbox := c.mailbox ++ [m1] } h1 (by simp; omega)
    simpa [List.append_assoc] using h2

/-- Concrete run of `hubBroadcast_backpressure` on `demoHub`: after two
publishes the never-draining capacity-1 subscriber `slow` is gone from the
registry and its channel is closed, while `a` holds both payloads. -/
theorem hubBroadcast_backpressure_witness :
    (∀ x ∈ (hubBroadcast (hubBroadcast demoHub ("p1")) "p2").clients, x.id ≠ "slow")
    ∧ "slow" ∈ (hubBroadcast (hubBroadcast demoHub ("p1")) "p2").closedChans
    ∧ ({ id := "a", mailbox := ["p1", "p2"], capacity := 256 } : HubClient)
        ∈ (hubBroadcast (hubBroadcast demoHub ("p1")) "p2").clients := by
  have h := hubBroadcast_backpressure demoHub ("p1") "p2" (by decide)
  refine ⟨?_, ?_, ?_⟩
  · exact (h.2.2.1 { id := "slow", mailbox := [], capacity := 1 } (by decide) rfl rfl).1
  · exact (h.2.2.1 { id := "slow", mailbox := [], capacity := 1 } (by decide) rfl rfl).2
  · exact h.2.2.2 { id := "a", mailbox := [], capacity := 256 } (by decide) (by decide)

/-- Claim C7 counterexample: with the 100-slot event channel at capacity, a
perfectly valid decoded event is dropped by `processMessage`'s non-blocking
send — the channel state is unchanged and the event is never forwarded, so
"every valid event is forwarded to the event channel" fails. -/
theorem consumerRouting_cex :
    validateEvent freshValidEvent = none
    ∧ processMessage fullEventChannels (some freshValidEvent) = fullEventChannels
    ∧ freshValidEvent ∉ (processMessage fullEventChannels (some freshValidEvent)).eventQueue := by
  have hv : validateEvent freshValidEvent = none := by
    have hm : ¬("m1" : String) = "" := by decide
    have ho : ¬("ok" : String) = "" := by decide
    have hcy : ¬("cycle" : String) = "" := by decide
    norm_num [validateEvent, freshValidEvent, mkEv, hm, ho, hcy]
  have hp : processMessage fullEventChannels (some freshValidEvent) = fullEventChannels := by
    simp [processMessage, hv, trySend, fullEventChannels]
  refine ⟨hv, hp, ?_⟩
  rw [hp]
  simp only [fullEventChannels, List.mem_replicate]
  rintro ⟨-, habs⟩
  have := congrArg SensorEvent.machineID habs
  simp [freshValidEvent, mkEv, default] at this

/-- Claim C7 (amended): validation succeeds exactly when machine id and
event type are non-empty, the status is ok/warning/fault, and each physical
quantity lies in its sanity range (speed in [0,10], temperature in
[-50,200], angle in [0,360]); decode failures and invalid events are
reported on the error channel (when it has room) and never forwarded; valid
events are forwarded to the event channel when it has room and are never
reported as errors. -/
theorem consumerRouting_amended (ch : ChannelState) (e : SensorEvent) :
    (validateEvent e = none ↔
      (e.machineID ≠ "" ∧ e.eventType ≠ ""
        ∧ (e.status = "ok" ∨ e.status = "warning" ∨ e.status = "fault")
        ∧ 0 ≤ e.conveyorSpeed ∧ e.conveyorSpeed ≤ 10
        ∧ -50 ≤ e.temperature ∧ e.temperature ≤ 200
        ∧ 0 ≤ e.robotArmAngle ∧ e.robotArmAngle ≤ 360))
    ∧ ((processMessage ch none).eventQueue = ch.eventQueue)
    ∧ (ch.errorQueue.length < ch.errorCap →
        (processMessage ch none).errorQueue
          = ch.errorQueue ++ [ConsumerError.unmarshalError])
    ∧ (∀ err, validateEvent e = some err →
        (processMessage ch (some e)).eventQueue = ch.eventQueue
        ∧ (ch.errorQueue.length < ch.errorCap →
            (processMessage ch (some e)).errorQueue
              = ch.errorQueue ++ [ConsumerError.invalidEvent err]))
    ∧ (validateEvent e = none →
        (processMessage ch (some e)).errorQueue = ch.errorQueue
        ∧ (ch.eventQueue.length < ch.eventCap →
            (processMessage ch (some e)).eventQueue = ch.eventQueue ++ [e])) := by
  refine ⟨?_, ?_, ?_, ?_, ?_⟩
  · have s1 : ¬("" : String) = "ok" := by decide
    have s2 : ¬("" : String) = "warning" := by decide
    have s3 : ¬("" : String) = "fault" := by decide
    unfold validateEvent
    split_ifs with h1 h2 h3 h4 h5 h6 h7 <;>
      simp_all [not_or, not_lt] <;>
      try (intros; first
        | (rcases h5 with hq | hq <;> linarith)
        | (rcases h6 with hq | hq <;> linarith)
        | (rcases h7 with hq | hq <;> linarith))
  · simp [processMessage, trySend]
  · intro hroom
    simp [processMessage, trySend, hroom]
  · intro err herr
    refine ⟨?_, fun hroom => ?_⟩
    · simp [processMessage, herr, trySend]
    · simp [processMessage, herr, trySend, hroom]
  · intro hv
    refine ⟨?_, fun hroom => ?_⟩
    · simp [processMessage, hv, trySend]
    · simp [processMessage, hv, trySend, hroom]

/-- Concrete run of `consumerRouting_amended`: a fresh valid event into the
initial (empty) channels validates and lands alone on the event channel. -/
theorem consumerRouting_witness :
    validateEvent freshValidEvent = none
    ∧ (processMessage newChannels (some freshValidEvent)).eventQueue = [freshValidEvent] := by
  have hv : validateEvent freshValidEvent = none := by
    refine ((consumerRouting_amended newChannels freshValidEvent).1).mpr ?_
    refine ⟨by decide, by decide, by simp [freshValidEvent, mkEv], ?_⟩
    norm_num [freshValidEvent, mkEv]
  refine ⟨hv, ?_⟩
  have h := ((consumerRouting_amended newChannels freshValidEvent).2.2.2.2 hv).2
    (by simp [newChannels])
  simpa [newChannels] using h

/-- Claim C8: analyzing the single decoded event
`{machine_id "m1", conveyor_speed 0, temperature 72, robot_arm_angle 90,
status "fault", event_type "conveyor_jam"}` on a fresh detector whose speed
thresholds are [0.5, 3.0] (temperature and angle thresholds covering 72 °C
and 90°) produces exactly two alerts, in order: a high-severity
`conveyor_speed_low` and a high-severity `conveyor_jam` whose message
carries the `description` found in the event's extra data when present. -/
theorem endToEnd_conveyorJam (th : AnomalyThresholds) (desc : Option String)
    (hsmin : th.conveyorSpeedMin = 1/2) (hsmax : th.conveyorSpeedMax = 3)
    (htlo : th.temperatureMin ≤ 72) (hthi : 72 ≤ th.temperatureMax)
    (halo : th.robotAngleMin ≤ 90) (hahi : 90 ≤ th.robotAngleMax) :
    ∃ m : String,
      (AnomalyDetector.analyzeEvent ⟨th, []⟩ (conveyorJamEvent desc)).2
        = [ { alertType := "conveyor_speed_low", severity := "high", message := m },
            { alertType := "conveyor_jam", severity := "high",
              message := match desc with
                | some d => "Machine fault: " ++ d
                | none => "Machine fault detected: conveyor_jam" } ] := by
  have hspeed : speedAlerts th (conveyorJamEvent desc)
      = [{ alertType := "conveyor_speed_low", severity := "high",
           message := "Conveyor speed below minimum threshold: "
             ++ fmtFixed 2 (conveyorJamEvent desc).conveyorSpeed
             ++ " m/s (min: " ++ fmtFixed 2 th.conveyorSpeedMin ++ ")" }] := by
    unfold speedAlerts
    rw [if_pos (by rw [hsmin]; norm_num [conveyorJamEvent])]
  have htemp : tempAlerts th (conveyorJamEvent desc) = [] := by
    unfold tempAlerts
    rw [if_neg (not_lt.mpr (show th.temperatureMin ≤ (conveyorJamEvent desc).temperature
          from htlo)),
      if_neg (not_lt.mpr (show (conveyorJamEvent desc).temperature ≤ th.temperatureMax
          from hthi))]
  have hangle : angleAlerts th (conveyorJamEvent desc) = [] := by
    unfold angleAlerts
    rw [if_neg ?hcond]
    case hcond =>
      push_neg
      exact ⟨halo, hahi⟩
  have hstatus : statusAlerts (conveyorJamEvent desc)
      = [{ alertType := "conveyor_jam", severity := "high",
           message := match desc with
             | some d => "Machine fault: " ++ d
             | none => "Machine fault detected: conveyor_jam" }] := by
    unfold statusAlerts
    rw [if_pos (show (conveyorJamEvent desc).status = "fault" from rfl)]
    cases desc <;> rfl
  refine ⟨"Conveyor speed below minimum threshold: "
      ++ fmtFixed 2 (conveyorJamEvent desc).conveyorSpeed
      ++ " m/s (min: " ++ fmtFixed 2 th.conveyorSpeedMin ++ ")", ?_⟩
  show detectThresholdViolations th (conveyorJamEvent desc)
      ++ detectTrendAnomalies (conveyorJamEvent desc)
          (windowContents ((newSlidingWindow 50).add (conveyorJamEvent desc)))
      ++ detectPatternAnomalies
          (windowContents ((newSlidingWindow 50).add (conveyorJamEvent desc)))
    = _
  rw [detectThresholdViolations, hspeed, htemp, hangle, hstatus,
    show detectTrendAnomalies (conveyorJamEvent desc)
        (windowContents ((newSlidingWindow 50).add (conveyorJamEvent desc))) = []
      from rfl,
    show detectPatternAnomalies
        (windowContents ((newSlidingWindow 50).add (conveyorJamEvent desc))) = []
      from rfl]
  simp
  cases desc <;> rfl

/-- Concrete run of `endToEnd_conveyorJam` with the C8 thresholds and a
string `description` in the extra data. -/
theorem endToEnd_conveyorJam_witness :
    ∃ m : String,
      (AnomalyDetector.analyzeEvent ⟨jamThresholds, []⟩
          (conveyorJamEvent (some ("belt jammed")))).2
        = [ { alertType := "conveyor_speed_low", severity := "high", message := m },
            { alertType := "conveyor_jam", severity := "high",
              message := "Machine fault: belt jammed" } ] := by
  have h := endToEnd_conveyorJam jamThresholds (some ("belt jammed")) rfl rfl
    (by norm_num [jamThresholds]) (by norm_num [jamThresholds])
    (by norm_num [jamThresholds]) (by norm_num [jamThresholds])
  exact h

end FleetStream
